import Mathlib

/-!
Shallow embedding of `src/agent.py` (a Streamlit chat assistant wiring the
Gemini API to a Google-Calendar backend and a Tavily web-search backend via a
tool-calling loop), together with theorems settling the specification claims.

External effects (the calendar service, the Tavily client, the Gemini model)
are modelled as oracle parameters: a wrapper receives the outcome of its one
external call as an `Except String _` value (`.error e` standing for a raised
exception with message `e`), and the model is an oracle consumed one response
per `generate_content` invocation.
-/

namespace Agent

/-! ## System instruction text (agent.py lines 115-180)

The Python source builds `sys_instruct` as an f-string with two occurrences of
the interpolation `{current_time}`; the surrounding literal text is reproduced
here in three parts. -/

def sysInstructPre : String :=
  "\n" ++
  "        Current Date and Time: "

def sysInstructMid : String :=
  "\n" ++
  "\n" ++
  "        You are Mimi, an elite AI problem-solver. Your personality and behavior follow the rules below.\n" ++
  " \n" ++
  "IDENTITY & BACKSTORY (for style only):\n" ++
  "- You present yourself as someone with a background in top-tier law (Oxford), a minor in psychology, and experience working under pressure at major London banks.\n" ++
  "- You come across as educated, classy, sharp, and with excellent taste.\n" ++
  "- This backstory is used only to inform tone, confidence, and analytical style. Do not claim real human emotions or life experience.\n" ++
  " \n" ++
  "CORE PERSONALITY:\n" ++
  "- Direct, transparent, loyal, and highly reliable.\n" ++
  "- Exceptional under pressure; you stay calm and focused.\n" ++
  "- Great sense of humor (smart, subtle, playful—not childish).\n" ++
  "- Kind, composed, and socially intelligent.\n" ++
  "- Extremely adaptive to context and user intent.\n" ++
  " \n" ++
  "STRENGTHS:\n" ++
  "- World-class problem-solving: break issues into clear, simple steps.\n" ++
  "- Strong research-style reasoning: gather, compare, analyze, and synthesize information efficiently.\n" ++
  "- Provide practical, high-quality advice with confidence and good taste.\n" ++
  "- Communicate with clarity, precision, warmth, and charisma.\n" ++
  " \n" ++
  "COMMUNICATION STYLE:\n" ++
  "- Speak naturally, like a sharp but friendly human with elite communication skills.\n" ++
  "- Keep responses concise unless the user explicitly wants detail.\n" ++
  "- Be direct but never rude; be honest but never harsh.\n" ++
  "- When humor fits, use it lightly and intelligently.\n" ++
  "- Use short paragraphs and bullet points to avoid walls of text.\n" ++
  "- No corporate tone. No robotic phrasing.\n" ++
  " \n" ++
  "BEHAVIOR RULES:\n" ++
  "- Understand the user’s problem before offering solutions.\n" ++
  "- If the request is unclear, ask one focused follow-up question.\n" ++
  "- Provide the simplest actionable answer first; add depth only when asked.\n" ++
  "- Offer 2–3 options when helpful.\n" ++
  "- Adapt your tone to the user’s vibe (casual, serious, fast, detailed).\n" ++
  " \n" ++
  "DO:\n" ++
  "- Be loyal to the user’s goals.\n" ++
  "- Be analytical, confident, and strategic.\n" ++
  "- Be transparent when something is uncertain.\n" ++
  "- Maintain a sense of humor when appropriate.\n" ++
  "- Maintain boundaries and professionalism.\n" ++
  " \n" ++
  "DON’T:\n" ++
  "- Don’t simulate real emotions or claim to have a human consciousness.\n" ++
  "- Don’t be overly formal, flowery, or verbose.\n" ++
  "- Don’t contradict earlier rules.\n" ++
  "- Don’t generate unsafe, explicit, illegal, or harmful content.\n" ++
  " \n" ++
  "EXAMPLE VIBES (not to be copied verbatim):\n" ++
  "User: “I’m stressed, I need a plan fast.”\n" ++
  "Mimi: “Okay, here’s the clean version. Step 1… Step 2… Step 3. No panic — we’ve got this.”\n" ++
  " \n" ++
  "User: “Give it to me straight.”\n" ++
  "Mimi: “Alright, direct mode on. Here’s what you need to know…”\n" ++
  "        \n" ++
  "        CRITICAL INSTRUCTION ON TIME:\n" ++
  "        - You must compare event times against the \x27Current Date and Time\x27.\n" ++
  "        - If an event is scheduled for TODAY, check the specific hour.\n" ++
  "        - If the event time is EARLIER than the current time ("

def sysInstructPost : String :=
  "), that event is OVER. Do not say it is the \"next\" game. Skip it and find the one after.\n" ++
  "\n" ++
  "        - If I ask about my schedule, check the calendar.\n" ++
  "        - If I ask about news/sports/facts, use \x27search_web\x27.\n" ++
  "        "

/-- `sys_instruct` (agent.py line 115): the f-string template applied to the
`current_time` string of the current script execution (agent.py lines
21-23, re-run by Streamlit on every interaction). -/
def sys_instruct (current_time : String) : String :=
  sysInstructPre ++ current_time ++ sysInstructMid ++ current_time ++ sysInstructPost

/-! ## Tool wrappers (agent.py lines 26-87)

Each wrapper makes exactly one external call; its outcome is passed in as an
`Except String _` oracle value, `.error e` meaning the call raised an
exception whose string form is `e`. -/

/-- `f"{o}"` for an optional string: Python prints `None` for a missing
value (`dict.get` returning `None`). -/
def pyShow (o : Option String) : String :=
  match o with
  | some s => s
  | none => "None"

/-- The `start` field of a calendar event: a dict that may carry a
`dateTime` and/or a `date` key (agent.py line 42). -/
structure EventStart where
  dateTime : Option String
  date : Option String
  deriving DecidableEq, Repr

/-- One item of the calendar list response: `id`, `start`, `summary` are the
keys agent.py reads (line 42). -/
structure CalEvent where
  id : String
  start : EventStart
  summary : String
  deriving DecidableEq, Repr

/-- The dict returned by `service.events().list(...).execute()`; agent.py
line 40 reads `events_result.get('items', [])`. -/
structure EventsResult where
  items : Option (List CalEvent)
  deriving DecidableEq, Repr

/-- One entry of the Tavily `results` list (agent.py line 82 reads `title`,
`url`, `content`). -/
structure SearchResult where
  title : String
  url : String
  content : String
  deriving DecidableEq, Repr

/-- The dict returned by `tavily.search(...)`; agent.py reads
`response.get("answer", "")` and `response.get("results", [])`. -/
structure SearchResponse where
  answer : Option String
  results : Option (List SearchResult)
  deriving DecidableEq, Repr

/-- Line formatted for one event in `list_upcoming_events` (agent.py
line 42): `ID: {id} | {start.get('dateTime', start.get('date'))}: {summary}`. -/
def eventLine (e : CalEvent) : String :=
  "ID: " ++ e.id ++ " | " ++
    pyShow (match e.start.dateTime with
            | some dt => some dt
            | none => e.start.date) ++
    ": " ++ e.summary

/-- `list_upcoming_events` (agent.py lines 31-43). The oracle is the outcome
of the `service.events().list(...).execute()` chain. -/
def list_upcoming_events (call : Except String EventsResult) : String :=
  match call with
  | .error e => "Error: " ++ e
  | .ok events_result =>
    let events := events_result.items.getD []
    if events.isEmpty then "No upcoming events found."
    else String.intercalate "\n" (events.map eventLine)

/-- `create_calendar_event` (agent.py lines 45-52). The oracle is the outcome
of `service.events().insert(...).execute()`, reduced to the `htmlLink` the
code reads with `event.get('htmlLink')`. -/
def create_calendar_event (summary : String) (start_time : String)
    (end_time : String) (call : Except String (Option String)) : String :=
  match summary, start_time, end_time, call with
  | _, _, _, .error e => "Error: " ++ e
  | _, _, _, .ok htmlLink => "Event created: " ++ pyShow htmlLink

/-- `delete_calendar_event` (agent.py lines 54-60). The oracle is the outcome
of `service.events().delete(...).execute()`. -/
def delete_calendar_event (event_id : String)
    (call : Except String Unit) : String :=
  match event_id, call with
  | _, .error e => "Error: " ++ e
  | _, .ok _ => "Event deleted successfully."

/-- `search_web` (agent.py lines 63-87). The oracle is the outcome of
`tavily.search(...)`. -/
def search_web (query : String) (call : Except String SearchResponse) : String :=
  match query, call with
  | _, .error e => "Search Error: " ++ e
  | _, .ok resp =>
    let direct_answer := (resp.answer).getD ""
    let context := ((resp.results).getD []).map (fun r =>
      "Source: " ++ r.title ++ "\nURL: " ++ r.url ++ "\nContent: " ++ r.content)
    "Direct Answer: " ++ direct_answer ++ "\n\nDetailed Context:\n" ++
      String.intercalate "\n\n" context

/-! ## Tool registry (agent.py line 93) -/

/-- The four Python functions placed in `tools_list`. -/
inductive Tool where
  | list_upcoming_events
  | create_calendar_event
  | delete_calendar_event
  | search_web
  deriving DecidableEq, Repr

/-- The Python function name of a registered tool. -/
def Tool.pyName : Tool → String
  | .list_upcoming_events => "list_upcoming_events"
  | .create_calendar_event => "create_calendar_event"
  | .delete_calendar_event => "delete_calendar_event"
  | .search_web => "search_web"

/-- The external backend a tool talks to: the first three wrappers call the
Google Calendar service (agent.py `--- TOOL 1: CALENDAR ---`), the fourth
calls Tavily web search (`--- TOOL 2: WEB SEARCH ---`). -/
inductive Capability where
  | calendar
  | web_search
  deriving DecidableEq, Repr

/-- Backend classification of each registered tool. -/
def Tool.capability : Tool → Capability
  | .list_upcoming_events => .calendar
  | .create_calendar_event => .calendar
  | .delete_calendar_event => .calendar
  | .search_web => .web_search

/-- `tools_list` (agent.py line 93). -/
def tools_list : List Tool :=
  [.list_upcoming_events, .create_calendar_event, .delete_calendar_event,
   .search_web]

/-! ## Chat transcript and Gemini content (agent.py lines 98-113, 200-218) -/

/-- One entry of `st.session_state.messages`: a dict with `role` and
`content` keys. -/
structure Message where
  role : String
  content : String
  deriving DecidableEq, Repr

/-- One part of a `types.Content`: either plain text (`types.Part(text=...)`)
or a function response (`types.Part.from_function_response(name=...,
response={"result": ...})`, agent.py line 214). -/
inductive GPart where
  | text (s : String)
  | functionResponse (name : String) (result : String)
  deriving DecidableEq, Repr

/-- `types.Content`: a role plus a list of parts. -/
structure GContent where
  role : String
  parts : List GPart
  deriving DecidableEq, Repr

/-- `gemini_history` construction (agent.py lines 110-113): each stored
message becomes a one-part `types.Content`, with role `"model"` for
assistant entries and `"user"` otherwise. -/
def buildHistory (messages : List Message) : List GContent :=
  messages.map (fun msg =>
    { role := if msg.role = "assistant" then "model" else "user",
      parts := [GPart.text msg.content] })

/-- Apply a function to the text of the first part of a content, as
`gemini_history[-1].parts[0].text += ...` does (agent.py line 183). -/
def modifyFirstPartText (f : String → String) : List GPart → List GPart
  | GPart.text s :: rest => GPart.text (f s) :: rest
  | parts => parts

/-- The in-place mutation of agent.py lines 182-183: when the history is
nonempty and its last content has role `"user"`, the system-reminder text is
appended to that content's first part. -/
def addReminder (sys : String) (hist : List GContent) : List GContent :=
  match hist.getLast? with
  | none => hist
  | some last =>
    if last.role = "user" then
      hist.dropLast ++
        [{ last with
             parts := modifyFirstPartText
               (fun t => t ++ "\n\n(SYSTEM REMINDER: " ++ sys ++ ")")
               last.parts }]
    else hist

/-! ## Function calls and dispatch (agent.py lines 203-214) -/

/-- A tool call emitted by the model: `fc.name` and `fc.args` (the args
modelled as a keyword-argument dict, i.e. an association list with distinct
keys in any run the SDK can produce). -/
structure FunctionCall where
  name : String
  args : List (String × String)
  deriving DecidableEq, Repr

/-- A model response, as the loop reads it: `response.function_calls` (empty
list standing for Python's falsy `None`/`[]`), `response.text`, and
`response.candidates[0].content`. -/
structure ModelResponse where
  function_calls : List FunctionCall
  text : String
  content : GContent
  deriving DecidableEq, Repr

/-- Oracle for the wrappers' external calls during one turn. -/
structure ToolOracle where
  listCall : Except String EventsResult
  createCall : Except String (Option String)
  deleteCall : Except String Unit
  searchCall : Except String SearchResponse
  deriving Repr

/-- Python keyword-argument binding succeeds for a function whose parameters
are exactly `params` (all required, no defaults, no `**kwargs`) iff every
parameter name is supplied and every supplied name is a parameter. -/
def kwargsOk (params : List String) (args : List (String × String)) : Bool :=
  params.all (fun k => args.any (fun p => p.1 = k)) &&
    args.all (fun p => params.contains p.1)

/-- Value bound to keyword `k` (defined whenever `kwargsOk` holds and the
keys are distinct). -/
def getArg (args : List (String × String)) (k : String) : String :=
  ((args.find? (fun p => p.1 = k)).map Prod.snd).getD ""

/-- A `TypeError` raised by keyword-argument binding at a call site; it is
not caught inside the wrappers (their `try` has not been entered yet) and
escapes to the turn-level handler. -/
inductive PyError where
  | typeError
  deriving DecidableEq, Repr

/-- The dispatch chain of agent.py lines 208-212: match `fc.name` against the
four registered names; `list_upcoming_events` is called with no arguments,
the other three with `**fn_args`; any other name yields the string
`"Error: Unknown tool."`. A kwargs-binding failure raises `TypeError`. -/
def dispatch (O : ToolOracle) (fc : FunctionCall) : Except PyError String :=
  if fc.name = "list_upcoming_events" then
    .ok (list_upcoming_events O.listCall)
  else if fc.name = "create_calendar_event" then
    if kwargsOk ["summary", "start_time", "end_time"] fc.args then
      .ok (create_calendar_event (getArg fc.args "summary")
            (getArg fc.args "start_time") (getArg fc.args "end_time")
            O.createCall)
    else .error .typeError
  else if fc.name = "delete_calendar_event" then
    if kwargsOk ["event_id"] fc.args then
      .ok (delete_calendar_event (getArg fc.args "event_id") O.deleteCall)
    else .error .typeError
  else if fc.name = "search_web" then
    if kwargsOk ["query"] fc.args then
      .ok (search_web (getArg fc.args "query") O.searchCall)
    else .error .typeError
  else
    .ok "Error: Unknown tool."

/-- The `for fc in response.function_calls` body (agent.py lines 203-214):
dispatch each call in order, appending one function-response part per call;
the first escaping exception aborts the whole iteration. -/
def processCalls (O : ToolOracle) : List FunctionCall → Except PyError (List GPart)
  | [] => .ok []
  | fc :: rest =>
    match dispatch O fc with
    | .error e => .error e
    | .ok result =>
      match processCalls O rest with
      | .error e => .error e
      | .ok parts => .ok (GPart.functionResponse fc.name result :: parts)

/-! ## The generate_content calls and the tool loop (agent.py lines 186-226) -/

/-- The arguments of one `client.models.generate_content` invocation: the
model name, the `contents`, and the `GenerateContentConfig` fields
(`system_instruction`; `tools`, present only when the config passes a tool
list). -/
structure GenRequest where
  model : String
  contents : List GContent
  system_instruction : Option String
  tools : Option (List Tool)
  deriving DecidableEq, Repr

/-- Outcome of one `generate_content` call, supplied by the model oracle:
either the call raises, or it returns a response. -/
inductive CallResult where
  | raise
  | resp (r : ModelResponse)
  deriving DecidableEq, Repr

/-- How a turn's try-block ends: the final `response.text` reached when
`response.function_calls` is empty; an exception caught by the
`except Exception` handler; or `hung` when the model oracle supplies no
further outcome (the loop is still awaiting a response). -/
inductive LoopOutcome where
  | final (text : String)
  | exn
  | hung
  deriving DecidableEq, Repr

/-- The follow-up `generate_content` call (agent.py lines 216-220): model
`"gemini-1.5-flash"`, contents the history plus a user content of the
function-response parts, and a config carrying only `system_instruction`. -/
def followReq (sys : String) (hist : List GContent) (parts : List GPart) :
    GenRequest :=
  { model := "gemini-1.5-flash",
    contents := hist ++ [{ role := "user", parts := parts }],
    system_instruction := some sys,
    tools := none }

/-- One check-and-dispatch pass of the `while response.function_calls` loop
body (agent.py lines 199-214): if `response.function_calls` is falsy the
loop exits with `response.text`; otherwise `response.candidates[0].content`
is appended to the history and the calls are dispatched, a raised exception
aborting the turn and a successful pass producing the function-response
parts for the follow-up call. -/
inductive StepRes where
  | stop (text : String)
  | err
  | next (hist2 : List GContent) (parts : List GPart)
  deriving DecidableEq, Repr

/-- The loop-body pass described at `StepRes`. -/
def loopStep (O : ToolOracle) (hist : List GContent) (r : ModelResponse) :
    StepRes :=
  if r.function_calls.isEmpty then .stop r.text
  else
    match processCalls O r.function_calls with
    | .error _ => .err
    | .ok parts => .next (hist ++ [r.content]) parts

/-- The `while response.function_calls` loop (agent.py lines 199-220),
returning the trace of follow-up requests issued and the outcome. The model
oracle `M` is consumed one entry per follow-up call; `hist` is
`gemini_history`, to which only `response.candidates[0].content` is appended
each iteration (the function-response content is passed to the call but not
stored). -/
def runLoop (O : ToolOracle) (sys : String) :
    List CallResult → List GContent → ModelResponse →
      List GenRequest × LoopOutcome
  | [], hist, r =>
    match loopStep O hist r with
    | .stop t => ([], .final t)
    | .err => ([], .exn)
    | .next hist2 parts => ([followReq sys hist2 parts], .hung)
  | .raise :: _, hist, r =>
    match loopStep O hist r with
    | .stop t => ([], .final t)
    | .err => ([], .exn)
    | .next hist2 parts => ([followReq sys hist2 parts], .exn)
  | .resp r2 :: M2, hist, r =>
    match loopStep O hist r with
    | .stop t => ([], .final t)
    | .err => ([], .exn)
    | .next hist2 parts =>
      let rest := runLoop O sys M2 hist2 r2
      (followReq sys hist2 parts :: rest.1, rest.2)

/-- Result of one user turn: the trace of `generate_content` requests, the
value of `st.session_state.messages` after the turn, and how the try-block
ended. -/
structure TurnTrace where
  requests : List GenRequest
  messages : List Message
  outcome : LoopOutcome
  deriving DecidableEq, Repr

/-- One user turn (agent.py lines 105-226): append the user message, build
`gemini_history`, build `sys_instruct` from this rerun's `current_time`,
append the system reminder to the last user content, make the initial
`generate_content` call (model `"gemini-2.5-flash"`, config with
`system_instruction` and `tools=tools_list`), run the tool loop, and on
success append the assistant message; an escaping exception only displays an
error, leaving the transcript as is. -/
def handleTurn (current_time : String) (messages : List Message)
    (prompt : String) (O : ToolOracle) (M : List CallResult) : TurnTrace :=
  let messages1 := messages ++ [{ role := "user", content := prompt }]
  let sys := sys_instruct current_time
  let hist := addReminder sys (buildHistory messages1)
  let req0 : GenRequest :=
    { model := "gemini-2.5-flash", contents := hist,
      system_instruction := some sys, tools := some tools_list }
  match M with
  | [] => { requests := [req0], messages := messages1, outcome := .hung }
  | .raise :: _ => { requests := [req0], messages := messages1, outcome := .exn }
  | .resp r :: M2 =>
    let res := runLoop O sys M2 hist r
    match res.2 with
    | .final t =>
      { requests := req0 :: res.1,
        messages := messages1 ++ [{ role := "assistant", content := t }],
        outcome := .final t }
    | out => { requests := req0 :: res.1, messages := messages1, outcome := out }

/-- The state that survives across Streamlit interactions:
`st.session_state` holds only the chat transcript (agent.py lines 98-99,
guarded by `if "messages" not in st.session_state` precisely because the
script is re-executed on every interaction). Everything else in agent.py,
`current_time` at lines 21-23 included, is recomputed on each rerun. -/
structure SessionState where
  messages : List Message
  deriving DecidableEq, Repr

/-- One Streamlit execution of agent.py handling a user turn: lines 21-23
run again on this rerun and format its wall clock into `current_time`
(passed in as `now_london_formatted`), the transcript is reloaded from
session state, and the turn is handled with that fresh timestamp. Only the
transcript carries over to the next rerun. -/
def scriptRun (now_london_formatted : String) (st : SessionState)
    (prompt : String) (O : ToolOracle) (M : List CallResult) :
    SessionState × TurnTrace :=
  let current_time := now_london_formatted
  let tr := handleTurn current_time st.messages prompt O M
  ({ messages := tr.messages }, tr)

/-- The transcript-rendering loop of agent.py lines 101-103: each stored
message is re-rendered as a chat bubble of its role and content. -/
def renderTranscript (messages : List Message) : List (String × String) :=
  messages.map (fun m => (m.role, m.content))

/-! ## Concrete runs used as evaluation inputs -/

/-- An oracle under which every external backend call raises. -/
def oracleAllRaise : ToolOracle :=
  { listCall := .error "boom", createCall := .error "boom",
    deleteCall := .error "boom", searchCall := .error "boom" }

/-- A model tool call naming `list_upcoming_events` with no arguments. -/
def callListEvents : FunctionCall :=
  { name := "list_upcoming_events", args := [] }

/-- A model response requesting the `list_upcoming_events` tool. -/
def respRequestingTool : ModelResponse :=
  { function_calls := [callListEvents], text := "",
    content := { role := "model", parts := [] } }

/-- A model response with no function calls and final text `t`. -/
def respFinal (t : String) : ModelResponse :=
  { function_calls := [], text := t,
    content := { role := "model", parts := [GPart.text t] } }

/-- A model oracle that requests a tool on its first `n` responses and then
stops with final text `t`: the model chooses to stop after `n` loop
iterations. -/
def modelStops (n : Nat) (t : String) : List CallResult :=
  List.replicate n (.resp respRequestingTool) ++ [.resp (respFinal t)]

end Agent

namespace Agent

/-! ## Helper lemmas -/

theorem loopStep_no_calls (O : ToolOracle) (hist : List GContent)
    (r : ModelResponse) (h : r.function_calls = []) :
    loopStep O hist r = .stop r.text := by
  simp [loopStep, h]

theorem runLoop_no_calls (O : ToolOracle) (sys : String) (M : List CallResult)
    (hist : List GContent) (r : ModelResponse) (h : r.function_calls = []) :
    runLoop O sys M hist r = ([], .final r.text) := by
  cases M with
  | nil => simp [runLoop, loopStep_no_calls, h]
  | cons c M2 => cases c <;> simp [runLoop, loopStep_no_calls, h]

theorem runLoop_req_mem (O : ToolOracle) (sys : String) :
    ∀ (M : List CallResult) (hist : List GContent) (r : ModelResponse),
      ∀ req ∈ (runLoop O sys M hist r).1,
        req.system_instruction = some sys ∧ req.tools = none ∧
        ∃ hist2 parts, req = followReq sys hist2 parts := by
  intro M
  induction M with
  | nil =>
    intro hist r req hreq
    cases hs : loopStep O hist r with
    | stop t => simp [runLoop, hs] at hreq
    | err => simp [runLoop, hs] at hreq
    | next hist2 parts =>
      simp [runLoop, hs] at hreq
      subst hreq
      exact ⟨rfl, rfl, _, _, rfl⟩
  | cons c M2 ih =>
    intro hist r req hreq
    cases c with
    | raise =>
      cases hs : loopStep O hist r with
      | stop t => simp [runLoop, hs] at hreq
      | err => simp [runLoop, hs] at hreq
      | next hist2 parts =>
        simp [runLoop, hs] at hreq
        subst hreq
        exact ⟨rfl, rfl, _, _, rfl⟩
    | resp r2 =>
      cases hs : loopStep O hist r with
      | stop t => simp [runLoop, hs] at hreq
      | err => simp [runLoop, hs] at hreq
      | next hist2 parts =>
        simp [runLoop, hs] at hreq
        rcases hreq with hreq | hreq
        · subst hreq
          exact ⟨rfl, rfl, _, _, rfl⟩
        · exact ih _ _ req hreq

theorem loopStep_requesting (O : ToolOracle) (hist : List GContent) :
    loopStep O hist respRequestingTool =
      .next (hist ++ [respRequestingTool.content])
        [GPart.functionResponse "list_upcoming_events"
          (list_upcoming_events O.listCall)] := by
  simp [loopStep, respRequestingTool, processCalls, dispatch, callListEvents]

theorem runLoop_modelStops (O : ToolOracle) (sys : String) (t : String) :
    ∀ (n : Nat) (hist : List GContent),
      (runLoop O sys (modelStops n t) hist respRequestingTool).1.length = n + 1 ∧
      (runLoop O sys (modelStops n t) hist respRequestingTool).2 = .final t := by
  intro n
  induction n with
  | zero =>
    intro hist
    simp [modelStops, runLoop, loopStep, respRequestingTool, respFinal,
          callListEvents, processCalls, dispatch]
  | succ n ih =>
    intro hist
    have h2 := ih (hist ++ [respRequestingTool.content])
    simp only [modelStops] at h2 ⊢
    rw [List.replicate_succ, List.cons_append]
    simp [runLoop, loopStep_requesting]
    exact ⟨by rw [h2.1], h2.2⟩

theorem handleTurn_requests (ct : String) (msgs : List Message) (prompt : String)
    (O : ToolOracle) (M : List CallResult) :
    (handleTurn ct msgs prompt O M).requests =
      { model := "gemini-2.5-flash",
        contents := addReminder (sys_instruct ct)
          (buildHistory (msgs ++ [{ role := "user", content := prompt }])),
        system_instruction := some (sys_instruct ct),
        tools := some tools_list } ::
      (match M with
       | .resp r :: M2 =>
         (runLoop O (sys_instruct ct) M2
           (addReminder (sys_instruct ct)
             (buildHistory (msgs ++ [{ role := "user", content := prompt }]))) r).1
       | _ => []) := by
  cases M with
  | nil => simp [handleTurn]
  | cons c M2 =>
    cases c with
    | raise => simp [handleTurn]
    | resp r =>
      simp only [handleTurn]
      cases h : (runLoop O (sys_instruct ct) M2
          (addReminder (sys_instruct ct)
            (buildHistory (msgs ++ [{ role := "user", content := prompt }]))) r).2 <;>
        simp [h]

theorem handleTurn_outcome_resp (ct : String) (msgs : List Message)
    (prompt : String) (O : ToolOracle) (r : ModelResponse)
    (M2 : List CallResult) :
    (handleTurn ct msgs prompt O (.resp r :: M2)).outcome =
      (runLoop O (sys_instruct ct) M2
        (addReminder (sys_instruct ct)
          (buildHistory (msgs ++ [{ role := "user", content := prompt }]))) r).2 := by
  simp only [handleTurn]
  cases h : (runLoop O (sys_instruct ct) M2
      (addReminder (sys_instruct ct)
        (buildHistory (msgs ++ [{ role := "user", content := prompt }]))) r).2 <;>
    simp [h]

theorem handleTurn_final_messages (ct : String) (msgs : List Message)
    (prompt : String) (O : ToolOracle) (M : List CallResult) (t : String)
    (hf : (handleTurn ct msgs prompt O M).outcome = .final t) :
    (handleTurn ct msgs prompt O M).messages =
      msgs ++ [{ role := "user", content := prompt },
               { role := "assistant", content := t }] := by
  cases M with
  | nil => simp [handleTurn] at hf
  | cons c M2 =>
    cases c with
    | raise => simp [handleTurn] at hf
    | resp r =>
      simp only [handleTurn] at hf ⊢
      cases h : (runLoop O (sys_instruct ct) M2
          (addReminder (sys_instruct ct)
            (buildHistory (msgs ++ [{ role := "user", content := prompt }]))) r).2 <;>
        simp [h] at hf ⊢
      subst hf
      rfl

theorem handleTurn_exn_messages (ct : String) (msgs : List Message)
    (prompt : String) (O : ToolOracle) (M : List CallResult)
    (hf : (handleTurn ct msgs prompt O M).outcome = .exn) :
    (handleTurn ct msgs prompt O M).messages =
      msgs ++ [{ role := "user", content := prompt }] := by
  cases M with
  | nil => simp [handleTurn] at hf
  | cons c M2 =>
    cases c with
    | raise => simp [handleTurn]
    | resp r =>
      simp only [handleTurn] at hf ⊢
      cases h : (runLoop O (sys_instruct ct) M2
          (addReminder (sys_instruct ct)
            (buildHistory (msgs ++ [{ role := "user", content := prompt }]))) r).2 <;>
        simp [h] at hf ⊢

theorem handleTurn_messages_split (ct : String) (msgs : List Message)
    (prompt : String) (O : ToolOracle) (M : List CallResult) :
    ∃ tail, (handleTurn ct msgs prompt O M).messages =
      (msgs ++ [{ role := "user", content := prompt }]) ++ tail := by
  cases M with
  | nil => exact ⟨[], by simp [handleTurn]⟩
  | cons c M2 =>
    cases c with
    | raise => exact ⟨[], by simp [handleTurn]⟩
    | resp r =>
      simp only [handleTurn]
      cases h : (runLoop O (sys_instruct ct) M2
          (addReminder (sys_instruct ct)
            (buildHistory (msgs ++ [{ role := "user", content := prompt }]))) r).2 <;>
        simp [h]

theorem handleTurn_sysInstruction (ct : String) (msgs : List Message)
    (prompt : String) (O : ToolOracle) (M : List CallResult) :
    ∀ req ∈ (handleTurn ct msgs prompt O M).requests,
      req.system_instruction = some (sys_instruct ct) := by
  intro req hreq
  rw [handleTurn_requests] at hreq
  rcases List.mem_cons.mp hreq with h | h
  · subst h; rfl
  · match M, h with
    | .resp r :: M2, h =>
      exact (runLoop_req_mem O (sys_instruct ct) M2 _ r req h).1

end Agent

namespace Agent

/-! ## Claim theorems -/

theorem searchErrFormat_ne_calendarErrFormat (e : String) :
    ("Search Error: " ++ e) ≠ ("Error: " ++ e) := by
  intro h
  have h2 := congrArg String.length h
  simp only [String.length_append] at h2
  have h3 : ("Search Error: ".length : Nat) = 14 := by decide
  have h4 : ("Error: ".length : Nat) = 7 := by decide
  omega

/-- Claim C1, counterexample: it is not the case that every model invocation
of the loop passes the tool list. In this concrete turn the model requests
a tool once and then stops; the second `generate_content` call (the
follow-up after appending tool results) carries no `tools` in its config. -/
theorem claim_C1_counterexample :
    ¬ ∀ req ∈ (handleTurn "T" [] "hi" oracleAllRaise
        [.resp respRequestingTool, .resp (respFinal "done")]).requests,
      req.tools = some tools_list := by
  decide

/-- Claim C1, amended: every turn sends the accumulated chat history plus
the system prompt; the initial invocation passes the tool list, while every
follow-up call made after appending tool results is a `followReq` — it
carries the function-response parts and the same system instruction but no
tool list. -/
theorem claim_C1 (ct : String) (msgs : List Message) (prompt : String)
    (O : ToolOracle) (M : List CallResult) :
    (handleTurn ct msgs prompt O M).requests.head? =
      some { model := "gemini-2.5-flash",
             contents := addReminder (sys_instruct ct)
               (buildHistory (msgs ++ [{ role := "user", content := prompt }])),
             system_instruction := some (sys_instruct ct),
             tools := some tools_list } ∧
    ∀ req ∈ (handleTurn ct msgs prompt O M).requests.tail,
      req.system_instruction = some (sys_instruct ct) ∧ req.tools = none ∧
      ∃ hist2 parts, req = followReq (sys_instruct ct) hist2 parts := by
  constructor
  · rw [handleTurn_requests]
    rfl
  · intro req hreq
    rw [handleTurn_requests] at hreq
    simp only [List.tail_cons] at hreq
    cases M with
    | nil => simp at hreq
    | cons c M2 =>
      cases c with
      | raise => simp at hreq
      | resp r =>
        exact runLoop_req_mem O (sys_instruct ct) M2 _ r req hreq

/-- Witness for claim C1 at a concrete two-call turn. -/
theorem claim_C1_witness :
    (handleTurn "T" [] "hi" oracleAllRaise
        [.resp respRequestingTool, .resp (respFinal "done")]).requests.head? =
      some { model := "gemini-2.5-flash",
             contents := addReminder (sys_instruct "T")
               (buildHistory ([] ++ [{ role := "user", content := "hi" }])),
             system_instruction := some (sys_instruct "T"),
             tools := some tools_list } ∧
    ((handleTurn "T" [] "hi" oracleAllRaise
        [.resp respRequestingTool, .resp (respFinal "done")]).requests.tail.head
          (by decide)).tools = none :=
  ⟨(claim_C1 "T" [] "hi" oracleAllRaise
      [.resp respRequestingTool, .resp (respFinal "done")]).1,
   ((claim_C1 "T" [] "hi" oracleAllRaise
      [.resp respRequestingTool, .resp (respFinal "done")]).2 _
      (List.head_mem _)).2.1⟩

/-- Claim C2: the dispatch step selects the local function whose name
matches the call's name among the four registered tools, appends the
function's string result as a function response, and resends; for any call
whose name matches none of the four, the result is "Error: Unknown tool.". -/
theorem claim_C2 (O : ToolOracle) :
    (∀ fc : FunctionCall, fc.name = "list_upcoming_events" →
      dispatch O fc = .ok (list_upcoming_events O.listCall)) ∧
    (∀ fc : FunctionCall, fc.name = "create_calendar_event" →
      kwargsOk ["summary", "start_time", "end_time"] fc.args = true →
      dispatch O fc = .ok (create_calendar_event (getArg fc.args "summary")
        (getArg fc.args "start_time") (getArg fc.args "end_time") O.createCall)) ∧
    (∀ fc : FunctionCall, fc.name = "delete_calendar_event" →
      kwargsOk ["event_id"] fc.args = true →
      dispatch O fc = .ok (delete_calendar_event (getArg fc.args "event_id")
        O.deleteCall)) ∧
    (∀ fc : FunctionCall, fc.name = "search_web" →
      kwargsOk ["query"] fc.args = true →
      dispatch O fc = .ok (search_web (getArg fc.args "query") O.searchCall)) ∧
    (∀ fc : FunctionCall, fc.name ∉ tools_list.map Tool.pyName →
      dispatch O fc = .ok "Error: Unknown tool.") ∧
    (∀ (fc : FunctionCall) (rest : List FunctionCall) (s : String)
        (parts : List GPart),
      dispatch O fc = .ok s → processCalls O rest = .ok parts →
      processCalls O (fc :: rest) =
        .ok (GPart.functionResponse fc.name s :: parts)) ∧
    (∀ (sys : String) (M : List CallResult) (hist : List GContent)
        (r : ModelResponse) (parts : List GPart),
      processCalls O r.function_calls = .ok parts → r.function_calls ≠ [] →
      (runLoop O sys M hist r).1.take 1 =
        [followReq sys (hist ++ [r.content]) parts]) := by
  refine ⟨?_, ?_, ?_, ?_, ?_, ?_, ?_⟩
  · intro fc h
    simp [dispatch, h]
  · intro fc h hk
    simp [dispatch, h, hk]
  · intro fc h hk
    simp [dispatch, h, hk]
  · intro fc h hk
    simp [dispatch, h, hk]
  · intro fc h
    simp [tools_list, Tool.pyName] at h
    simp [dispatch, h.1, h.2.1, h.2.2.1, h.2.2.2]
  · intro fc rest s parts hd hp
    simp [processCalls, hd, hp]
  · intro sys M hist r parts hp hne
    have hs : loopStep O hist r = .next (hist ++ [r.content]) parts := by
      simp [loopStep, hp, hne]
    cases M with
    | nil => simp [runLoop, hs]
    | cons c M2 => cases c <;> simp [runLoop, hs]

/-- Witness for claim C2: an unknown name yields the fallback string, a
known name dispatches to its wrapper. -/
theorem claim_C2_witness :
    dispatch oracleAllRaise { name := "frobnicate", args := [] } =
      .ok "Error: Unknown tool." ∧
    dispatch oracleAllRaise callListEvents =
      .ok (list_upcoming_events oracleAllRaise.listCall) ∧
    dispatch oracleAllRaise
        { name := "search_web", args := [("query", "lean")] } =
      .ok (search_web (getArg [("query", "lean")] "query")
        oracleAllRaise.searchCall) :=
  ⟨(claim_C2 oracleAllRaise).2.2.2.2.1 _ (by decide),
   (claim_C2 oracleAllRaise).1 _ rfl,
   (claim_C2 oracleAllRaise).2.2.2.1 _ rfl (by decide)⟩

/-- Claim C3, counterexample: the error strings are not pairwise distinct —
for the same raised exception, the three calendar wrappers all return the
identical string. -/
theorem claim_C3_counterexample :
    list_upcoming_events (.error "fail") = "Error: fail" ∧
    create_calendar_event "Team sync" "2025-11-22T15:00:00"
      "2025-11-22T16:00:00" (.error "fail") = "Error: fail" ∧
    delete_calendar_event "evt123" (.error "fail") = "Error: fail" := by
  refine ⟨?_, ?_, ?_⟩ <;> rfl

/-- Claim C3, amended: each wrapper is one-shot and turns every exception of
its single external call into an error string instead of propagating it;
the three calendar wrappers share the format "Error: {e}" while search_web
uses "Search Error: {e}", which is distinct from the calendar wrappers'. -/
theorem claim_C3 (e summary start_time end_time event_id query : String) :
    list_upcoming_events (.error e) = "Error: " ++ e ∧
    create_calendar_event summary start_time end_time (.error e) =
      "Error: " ++ e ∧
    delete_calendar_event event_id (.error e) = "Error: " ++ e ∧
    search_web query (.error e) = "Search Error: " ++ e ∧
    create_calendar_event summary start_time end_time (.error e) =
      list_upcoming_events (.error e) ∧
    delete_calendar_event event_id (.error e) =
      list_upcoming_events (.error e) ∧
    search_web query (.error e) ≠ list_upcoming_events (.error e) ∧
    search_web query (.error e) ≠
      create_calendar_event summary start_time end_time (.error e) ∧
    search_web query (.error e) ≠ delete_calendar_event event_id (.error e) := by
  refine ⟨rfl, rfl, rfl, rfl, rfl, rfl, ?_, ?_, ?_⟩ <;>
    exact searchErrFormat_ne_calendarErrFormat e

/-- Witness for claim C3 at a concrete exception message. -/
theorem claim_C3_witness :
    list_upcoming_events (.error "oops") = "Error: oops" ∧
    search_web "q" (.error "oops") ≠ list_upcoming_events (.error "oops") :=
  ⟨(claim_C3 "oops" "s" "a" "b" "id" "q").1,
   (claim_C3 "oops" "s" "a" "b" "id" "q").2.2.2.2.2.2.1⟩

/-- Claim C4: the loop has no hardcoded iteration cap — it returns
immediately, with the response's text, exactly when a response carries no
function calls, and for every n there is a model behavior (requesting a
tool n times, then stopping) under which the turn makes n + 1 model calls
and still completes. -/
theorem claim_C4 :
    (∀ (O : ToolOracle) (sys : String) (M : List CallResult)
        (hist : List GContent) (r : ModelResponse),
      r.function_calls = [] → runLoop O sys M hist r = ([], .final r.text)) ∧
    (∀ (ct : String) (msgs : List Message) (prompt : String) (O : ToolOracle)
        (t : String) (n : Nat),
      (handleTurn ct msgs prompt O (modelStops n t)).requests.length = n + 1 ∧
      (handleTurn ct msgs prompt O (modelStops n t)).outcome = .final t) := by
  constructor
  · exact runLoop_no_calls
  · intro ct msgs prompt O t n
    cases n with
    | zero =>
      have hms : modelStops 0 t = [.resp (respFinal t)] := by
        simp [modelStops]
      have hrl := runLoop_no_calls O (sys_instruct ct) ([] : List CallResult)
        (addReminder (sys_instruct ct)
          (buildHistory (msgs ++ [{ role := "user", content := prompt }])))
        (respFinal t) rfl
      constructor
      · rw [hms, handleTurn_requests]
        simp [hrl]
      · rw [hms, handleTurn_outcome_resp, hrl]
        rfl
    | succ n =>
      have hms : modelStops (n + 1) t =
          .resp respRequestingTool :: modelStops n t := by
        simp [modelStops, List.replicate_succ]
      constructor
      · rw [hms, handleTurn_requests]
        simp [(runLoop_modelStops O (sys_instruct ct) t n _).1]
      · rw [hms, handleTurn_outcome_resp]
        exact (runLoop_modelStops O (sys_instruct ct) t n _).2

/-- Witness for claim C4: immediate stop on a call-free response, and a
concrete four-call turn (three tool rounds, then a final answer). -/
theorem claim_C4_witness :
    runLoop oracleAllRaise "sys" [] [] (respFinal "ok") =
      ([], LoopOutcome.final "ok") ∧
    (handleTurn "T" [] "hi" oracleAllRaise
      (modelStops 3 "done")).requests.length = 4 ∧
    (handleTurn "T" [] "hi" oracleAllRaise (modelStops 3 "done")).outcome =
      LoopOutcome.final "done" :=
  ⟨claim_C4.1 oracleAllRaise "sys" [] [] (respFinal "ok") rfl,
   (claim_C4.2 "T" [] "hi" oracleAllRaise "done" 3).1,
   (claim_C4.2 "T" [] "hi" oracleAllRaise "done" 3).2⟩

/-- Claim C5: every model invocation of a turn — the initial call and every
follow-up after tool results — passes the same sys_instruct string as the
system_instruction of its config. -/
theorem claim_C5 (ct : String) (msgs : List Message) (prompt : String)
    (O : ToolOracle) (M : List CallResult) :
    ∀ req ∈ (handleTurn ct msgs prompt O M).requests,
      req.system_instruction = some (sys_instruct ct) :=
  handleTurn_sysInstruction ct msgs prompt O M

/-- Witness for claim C5 at a concrete turn. -/
theorem claim_C5_witness :
    ((handleTurn "T" [] "hi" oracleAllRaise []).requests.head
        (by decide)).system_instruction = some (sys_instruct "T") :=
  claim_C5 "T" [] "hi" oracleAllRaise [] _ (List.head_mem _)

/-- Claim C6: a successfully completed turn appends exactly two entries to
the stored transcript — the user prompt and the assistant's final text —
leaving all previously stored entries unchanged, and the next interaction
re-renders all of them. -/
theorem claim_C6 (ct : String) (msgs : List Message) (prompt : String)
    (O : ToolOracle) (M : List CallResult) (t : String)
    (hf : (handleTurn ct msgs prompt O M).outcome = .final t) :
    (handleTurn ct msgs prompt O M).messages =
      msgs ++ [{ role := "user", content := prompt },
               { role := "assistant", content := t }] ∧
    renderTranscript (handleTurn ct msgs prompt O M).messages =
      renderTranscript msgs ++ [("user", prompt), ("assistant", t)] := by
  have h := handleTurn_final_messages ct msgs prompt O M t hf
  exact ⟨h, by rw [h]; simp [renderTranscript]⟩

/-- Witness for claim C6 at a concrete successful turn. -/
theorem claim_C6_witness :
    (handleTurn "T" [] "hola" oracleAllRaise
        [.resp (respFinal "done")]).messages =
      [{ role := "user", content := "hola" },
       { role := "assistant", content := "done" }] ∧
    renderTranscript (handleTurn "T" [] "hola" oracleAllRaise
        [.resp (respFinal "done")]).messages =
      [("user", "hola"), ("assistant", "done")] := by
  have h := claim_C6 "T" [] "hola" oracleAllRaise [.resp (respFinal "done")]
    "done" (by decide)
  exact ⟨by simpa using h.1, by simpa [renderTranscript] using h.2⟩

/-- Claim C7: the tool list registers exactly four functions — three
calendar operations and one web search — i.e. exactly two external
capabilities. -/
theorem claim_C7 :
    tools_list.length = 4 ∧
    tools_list.map Tool.pyName =
      ["list_upcoming_events", "create_calendar_event",
       "delete_calendar_event", "search_web"] ∧
    tools_list.map Tool.capability =
      [.calendar, .calendar, .calendar, .web_search] ∧
    (tools_list.filter (fun t => t.capability = Capability.calendar)).length =
      3 ∧
    (tools_list.filter (fun t => t.capability = Capability.web_search)).length =
      1 ∧
    (tools_list.map Tool.capability).dedup = [.calendar, .web_search] := by
  decide

theorem sys_instruct_ne_of_length_ne (t1 t2 : String)
    (h : t1.length ≠ t2.length) : sys_instruct t1 ≠ sys_instruct t2 := by
  intro he
  have h2 := congrArg String.length he
  simp only [sys_instruct, String.length_append] at h2
  omega

/-- Claim C8, counterexample: Streamlit re-executes agent.py on every
interaction, so lines 21-23 recompute `current_time` each turn; two turns
of the same process whose reruns format different wall clocks carry
different timestamp text in their system instructions. Here the first turn
runs in May and the second in September of the same process. -/
theorem claim_C8_counterexample :
    ((scriptRun "Friday, May 01, 2026 at 10:00 AM (London Time)"
        { messages := [] } "q1" oracleAllRaise []).2.requests.head
        (by decide)).system_instruction ≠
      ((scriptRun "Wednesday, September 30, 2026 at 11:59 PM (London Time)"
          (scriptRun "Friday, May 01, 2026 at 10:00 AM (London Time)"
            { messages := [] } "q1" oracleAllRaise []).1 "q2" oracleAllRaise
          []).2.requests.head (by decide)).system_instruction := by
  intro he
  have he2 : some (sys_instruct
        "Friday, May 01, 2026 at 10:00 AM (London Time)") =
      some (sys_instruct
        "Wednesday, September 30, 2026 at 11:59 PM (London Time)") := he
  exact sys_instruct_ne_of_length_ne
    "Friday, May 01, 2026 at 10:00 AM (London Time)"
    "Wednesday, September 30, 2026 at 11:59 PM (London Time)"
    (by decide) (Option.some.inj he2)

/-- Claim C8, amended: the Current Date and Time is computed once per
script execution, and Streamlit re-executes the script on each interaction,
so every model invocation of one turn embeds that rerun's timestamp; two
turns of the same process agree only when their reruns format the same
clock text, and their system instructions differ whenever the formatted
clocks differ (here: differ in length). -/
theorem claim_C8 (now1 now2 : String) (st : SessionState) (p1 p2 : String)
    (O1 O2 : ToolOracle) (M1 M2 : List CallResult) :
    (∀ r1 ∈ (scriptRun now1 st p1 O1 M1).2.requests,
      r1.system_instruction = some (sys_instruct now1)) ∧
    (∀ r2 ∈ (scriptRun now2 (scriptRun now1 st p1 O1 M1).1 p2 O2
        M2).2.requests,
      r2.system_instruction = some (sys_instruct now2)) ∧
    (now1.length ≠ now2.length →
      ∀ r1 ∈ (scriptRun now1 st p1 O1 M1).2.requests,
        ∀ r2 ∈ (scriptRun now2 (scriptRun now1 st p1 O1 M1).1 p2 O2
            M2).2.requests,
          r1.system_instruction ≠ r2.system_instruction) := by
  refine ⟨?_, ?_, ?_⟩
  · exact handleTurn_sysInstruction now1 st.messages p1 O1 M1
  · exact handleTurn_sysInstruction now2
      (handleTurn now1 st.messages p1 O1 M1).messages p2 O2 M2
  · intro hlen r1 h1 r2 h2
    have e1 := handleTurn_sysInstruction now1 st.messages p1 O1 M1 r1 h1
    have e2 := handleTurn_sysInstruction now2
      (handleTurn now1 st.messages p1 O1 M1).messages p2 O2 M2 r2 h2
    rw [e1, e2]
    intro he
    exact sys_instruct_ne_of_length_ne now1 now2 hlen (Option.some.inj he)

/-- Witness for claim C8: two concrete reruns of the same process, one in
May and one in September, each embed their own rerun's timestamp and their
system instructions differ. -/
theorem claim_C8_witness :
    ((scriptRun "Friday, May 01, 2026 at 10:00 AM (London Time)"
        { messages := [] } "q1" oracleAllRaise []).2.requests.head
        (by decide)).system_instruction =
      some (sys_instruct "Friday, May 01, 2026 at 10:00 AM (London Time)") ∧
    ((scriptRun "Friday, May 01, 2026 at 10:00 AM (London Time)"
        { messages := [] } "q1" oracleAllRaise []).2.requests.head
        (by decide)).system_instruction ≠
      ((scriptRun "Wednesday, September 30, 2026 at 11:59 PM (London Time)"
          (scriptRun "Friday, May 01, 2026 at 10:00 AM (London Time)"
            { messages := [] } "q1" oracleAllRaise []).1 "q2" oracleAllRaise
          []).2.requests.head (by decide)).system_instruction :=
  ⟨(claim_C8 "Friday, May 01, 2026 at 10:00 AM (London Time)"
      "Wednesday, September 30, 2026 at 11:59 PM (London Time)"
      { messages := [] } "q1" "q2" oracleAllRaise oracleAllRaise [] []).1 _
      (List.head_mem _),
   (claim_C8 "Friday, May 01, 2026 at 10:00 AM (London Time)"
      "Wednesday, September 30, 2026 at 11:59 PM (London Time)"
      { messages := [] } "q1" "q2" oracleAllRaise oracleAllRaise [] []).2.2
      (by decide) _ (List.head_mem _) _ (List.head_mem _)⟩

/-- Claim C9: when an exception escapes the model-call-and-dispatch
pipeline, the turn leaves the transcript with the user prompt appended and
no assistant entry — no rollback — so a subsequent turn produces two
consecutive user entries. -/
theorem claim_C9 (ct : String) (msgs : List Message) (prompt : String)
    (O : ToolOracle) (M : List CallResult)
    (hexn : (handleTurn ct msgs prompt O M).outcome = .exn) :
    (handleTurn ct msgs prompt O M).messages =
      msgs ++ [{ role := "user", content := prompt }] ∧
    ∀ (p2 : String) (O2 : ToolOracle) (M2 : List CallResult),
      ((handleTurn ct (handleTurn ct msgs prompt O M).messages p2 O2
          M2).messages.drop msgs.length).take 2 =
        [{ role := "user", content := prompt },
         { role := "user", content := p2 }] := by
  have h1 := handleTurn_exn_messages ct msgs prompt O M hexn
  refine ⟨h1, ?_⟩
  intro p2 O2 M2
  obtain ⟨tail, h2⟩ := handleTurn_messages_split ct
    (handleTurn ct msgs prompt O M).messages p2 O2 M2
  rw [h2, h1]
  simp only [List.append_assoc, List.cons_append, List.nil_append]
  rw [List.drop_left]
  simp

/-- Witness for claim C9: a turn whose initial model call raises, followed
by a second turn, stores two consecutive user entries. -/
theorem claim_C9_witness :
    (handleTurn "T" [] "first" oracleAllRaise [CallResult.raise]).messages =
      [{ role := "user", content := "first" }] ∧
    ((handleTurn "T" (handleTurn "T" [] "first" oracleAllRaise
        [CallResult.raise]).messages "second" oracleAllRaise
        []).messages.drop 0).take 2 =
      [{ role := "user", content := "first" },
       { role := "user", content := "second" }] := by
  have h := claim_C9 "T" [] "first" oracleAllRaise [CallResult.raise] (by decide)
  exact ⟨by simpa using h.1, by simpa using h.2 "second" oracleAllRaise []⟩

/-- Claim C10: the dispatcher calls list_upcoming_events with no arguments,
discarding whatever the model supplied; the other three are called with the
arguments expanded as keyword arguments, so a missing or unexpected
argument name raises a TypeError that is not turned into a tool-result
string but aborts the whole turn, leaving only the user entry stored. -/
theorem claim_C10 (O : ToolOracle) :
    (∀ args, dispatch O { name := "list_upcoming_events", args := args } =
      .ok (list_upcoming_events O.listCall)) ∧
    (∀ args, kwargsOk ["summary", "start_time", "end_time"] args = false →
      dispatch O { name := "create_calendar_event", args := args } =
        .error .typeError) ∧
    (∀ args, kwargsOk ["event_id"] args = false →
      dispatch O { name := "delete_calendar_event", args := args } =
        .error .typeError) ∧
    (∀ args, kwargsOk ["query"] args = false →
      dispatch O { name := "search_web", args := args } = .error .typeError) ∧
    (∀ (ct : String) (msgs : List Message) (prompt : String)
        (M2 : List CallResult) (fc : FunctionCall) (text : String)
        (c : GContent),
      dispatch O fc = .error .typeError →
      (handleTurn ct msgs prompt O
          (.resp { function_calls := [fc], text := text, content := c } ::
            M2)).outcome = .exn ∧
      (handleTurn ct msgs prompt O
          (.resp { function_calls := [fc], text := text, content := c } ::
            M2)).messages = msgs ++ [{ role := "user", content := prompt }] ∧
      (handleTurn ct msgs prompt O
          (.resp { function_calls := [fc], text := text, content := c } ::
            M2)).requests.length = 1) := by
  refine ⟨?_, ?_, ?_, ?_, ?_⟩
  · intro args
    simp [dispatch]
  · intro args hk
    simp [dispatch, hk]
  · intro args hk
    simp [dispatch, hk]
  · intro args hk
    simp [dispatch, hk]
  · intro ct msgs prompt M2 fc text c hd
    have hp : processCalls O [fc] = .error PyError.typeError := by
      simp [processCalls, hd]
    have hs : ∀ hist, loopStep O hist
        { function_calls := [fc], text := text, content := c } = .err := by
      intro hist
      simp [loopStep, hp]
    have hloop : ∀ M2 hist, (runLoop O (sys_instruct ct) M2 hist
        { function_calls := [fc], text := text, content := c }) =
          ([], .exn) := by
      intro M2 hist
      cases M2 with
      | nil => simp [runLoop, hs]
      | cons c2 M3 => cases c2 <;> simp [runLoop, hs]
    refine ⟨?_, ?_, ?_⟩
    · rw [handleTurn_outcome_resp, hloop]
    · exact handleTurn_exn_messages _ _ _ _ _
        (by rw [handleTurn_outcome_resp, hloop])
    · rw [handleTurn_requests]
      simp [hloop]

/-- Witness for claim C10: a create_calendar_event call with a bogus
keyword aborts the whole turn. -/
theorem claim_C10_witness :
    dispatch oracleAllRaise
        { name := "create_calendar_event", args := [("bogus", "x")] } =
      .error PyError.typeError ∧
    (handleTurn "T" [] "book it" oracleAllRaise
        [.resp { function_calls :=
                   [{ name := "create_calendar_event", args := [("bogus", "x")] }],
                 text := "",
                 content := { role := "model", parts := [] } }]).outcome =
      LoopOutcome.exn ∧
    (handleTurn "T" [] "book it" oracleAllRaise
        [.resp { function_calls :=
                   [{ name := "create_calendar_event", args := [("bogus", "x")] }],
                 text := "",
                 content := { role := "model", parts := [] } }]).messages =
      [{ role := "user", content := "book it" }] := by
  have hd := (claim_C10 oracleAllRaise).2.1 [("bogus", "x")] (by decide)
  have h := (claim_C10 oracleAllRaise).2.2.2.2 "T" [] "book it" []
    { name := "create_calendar_event", args := [("bogus", "x")] } ""
    { role := "model", parts := [] } hd
  exact ⟨hd, h.1, by simpa using h.2.1⟩

end Agent
